import Mathlib

/-!
Verification of the scene-editing core of `src/ThreeDEditor.jsx` (3D-Editor).

The editor state (object registry, selection, transform gizmo attachment,
undo stack) and its operations (`addPrimitive`, `selectObject`,
`deleteObject`, `selectAllObjects`, `duplicateObject`, `toggleVisibility`,
`updateObjectProperty`, `saveUndoState`, `undo`, `snapToGrid`,
`importModel`) are shallowly embedded as pure state transformers.

Modelling conventions, all exact:
* Numeric scalars are rationals.  Angle components are recorded in units of
  pi radians, so `THREE.MathUtils.degToRad d = d * pi / 180` becomes
  `d / 180`; this unit change is a bijection and no statement below depends
  on the absolute scale of an angle.
* Material scalar channels that the code can set to `NaN` (a bare
  `parseFloat` with no fallback) are `Option` valued, `none` denoting `NaN`.
* `JavaScript` object aliasing (the React state holds references to the
  same mutable `THREE.Mesh`) is resolved by keying selection state on the
  object id; every in-place mesh mutation becomes an update of the registry
  entry with that id.
* Environment inputs (the clock and random draw behind `generateId`, the
  randomized default color, the result delivered by the external `GLTF`
  codec, the result of `parseFloat` / `Color.set` on a form string) are
  explicit arguments.
-/

namespace ThreeDEditor

/-- A 3-component vector (`THREE.Vector3` / `THREE.Euler`).  Components of a
rotation are stored in units of pi radians (see the file header). -/
structure Vec3 where
  x : ℚ
  y : ℚ
  z : ℚ
deriving DecidableEq, Repr

/-- The fields of a `THREE.MeshStandardMaterial` that the editor touches.
Colors are hex values as returned by `Color.getHex`.  `metalness`,
`roughness`, `opacity` and `emissiveIntensity` are set by bare `parseFloat`
calls in `updateObjectProperty` and can therefore hold `NaN`, modelled as
`none`. -/
structure Material where
  color : ℕ
  metalness : Option ℚ
  roughness : Option ℚ
  transparent : Bool
  opacity : Option ℚ
  emissive : ℕ
  emissiveIntensity : Option ℚ
  wireframe : Bool
deriving DecidableEq, Repr

/-- The geometry constructed for an object.  The thirteen geometry classes
that both `addPrimitive` and the undo rehydration switch build carry their
exact constructor arguments; each of the remaining decorative shape kinds of
`addPrimitive` (extruded outlines, lathe profiles, tube sweeps, parametric
surfaces, boolean-free composites) is represented by an `other` value tagged
with its shape kind, since no claim below depends on their vertex data and
they are pairwise distinct values. -/
inductive Geometry where
  | box (w h d : ℚ)
  | sphere (r : ℚ) (widthSegs heightSegs : ℕ)
  | cylinder (rTop rBottom height : ℚ) (radialSegs : ℕ)
  | cone (r height : ℚ) (radialSegs : ℕ)
  | torus (r tube : ℚ) (radialSegs tubularSegs : ℕ)
  | plane (w h : ℚ)
  | torusKnot (r tube : ℚ) (tubularSegs radialSegs : ℕ)
  | tetrahedron (r : ℚ)
  | octahedron (r : ℚ)
  | dodecahedron (r : ℚ)
  | icosahedron (r : ℚ)
  | ring (innerR outerR : ℚ) (thetaSegs : ℕ)
  | capsule (r len : ℚ) (capSegs radialSegs : ℕ)
  | other (tag : String)
deriving DecidableEq, Repr

/-- The mutable mesh state of one scene object (`obj.mesh`). -/
structure Mesh where
  geometry : Geometry
  material : Material
  position : Vec3
  rotation : Vec3
  scale : Vec3
  visible : Bool
deriving DecidableEq, Repr

/-- One registry entry: `{ id, name, type, mesh }`. -/
structure SceneObject where
  id : String
  name : String
  type : String
  mesh : Mesh
deriving DecidableEq, Repr

/-- One entry of an undo snapshot: exactly the fields `saveUndoState`
copies (id, name, type, position, rotation, scale, color hex, metalness,
roughness, visibility) and nothing else. -/
structure SavedObj where
  id : String
  name : String
  type : String
  position : Vec3
  rotation : Vec3
  scale : Vec3
  color : ℕ
  metalness : Option ℚ
  roughness : Option ℚ
  visible : Bool
deriving DecidableEq, Repr

/-- A full-scene undo snapshot. -/
abbrev Snapshot := List SavedObj

/-- The React state relevant to the claims: the object registry, the primary
selection (`selectedObject`, stored by id), the multi-selection array
(`selectedObjects`, ids in insertion order), the transform-gizmo attachment
(`some id` when `transformControls.attach` was last called on that object's
mesh, `none` after `detach`), the undo stack, and the name counter. -/
structure EditorState where
  objects : List SceneObject
  selectedObject : Option String
  selectedObjects : List String
  gizmo : Option String
  undoStack : List Snapshot
  objectCounter : ℕ
deriving DecidableEq, Repr

/-- The ids of the live objects, in registry order. -/
def liveIds (s : EditorState) : List String :=
  s.objects.map SceneObject.id

/-- `generateId`: the string `obj_<t>_<r>` built from `Date.now()` (`t`) and
the 9-character base-36 fragment of `Math.random().toString(36)` (`r`); both
are environment inputs. -/
def generateId (t : ℕ) (r : String) : String :=
  "obj_" ++ toString t ++ "_" ++ r

/-- The per-object copy taken by `saveUndoState` (position/rotation/scale are
`clone()`d, the color is read back as a hex number). -/
def savedOf (o : SceneObject) : SavedObj :=
  { id := o.id, name := o.name, type := o.type,
    position := o.mesh.position, rotation := o.mesh.rotation,
    scale := o.mesh.scale, color := o.mesh.material.color,
    metalness := o.mesh.material.metalness,
    roughness := o.mesh.material.roughness, visible := o.mesh.visible }

/-- The snapshot of a registry. -/
def snapshotOf (objs : List SceneObject) : Snapshot :=
  objs.map savedOf

/-- The `setUndoStack` updater of `saveUndoState`: append, then keep only the
last 20 entries (`newStack.slice(-20)`). -/
def pushSnap (prev : List Snapshot) (state : Snapshot) : List Snapshot :=
  let newStack := prev ++ [state]
  if newStack.length > 20 then newStack.drop (newStack.length - 20)
  else newStack

/-- `saveUndoState`. -/
def saveUndoState (s : EditorState) : EditorState :=
  { s with undoStack := pushSnap s.undoStack (snapshotOf s.objects) }

/-- Replace the emissive hex of one object (`mesh.material.emissive.setHex`). -/
def withEmissive (o : SceneObject) (e : ℕ) : SceneObject :=
  { o with mesh := { o.mesh with material := { o.mesh.material with emissive := e } } }

/-- The multi-select update of `selectObject`: drop the id if it is already
a member, append it otherwise. -/
def toggledSelection (id : String) (prev : List String) : List String :=
  if id ∈ prev then prev.filter (· ≠ id) else prev ++ [id]

/-- `selectObject(obj, addToSelection)`.  The leading loop resets the
emissive of every live object to `0x000000`; then the selected branch
re-applies the `0x333333` highlight, attaches the gizmo to the primary, and
stores the new selection.  `obj = none` is `selectObject(null)`. -/
def selectObject (obj : Option String) (addToSelection : Bool) (s : EditorState) : EditorState :=
  let objs := s.objects.map (withEmissive · 0)
  match obj with
  | some id =>
    if addToSelection then
      let newSelection := toggledSelection id s.selectedObjects
      let objs := objs.map fun o =>
        if o.id ∈ newSelection then withEmissive o 0x333333 else o
      match newSelection.getLast? with
      | some lastSelected =>
          { s with objects := objs, selectedObjects := newSelection,
                   selectedObject := some lastSelected, gizmo := some lastSelected }
      | none =>
          { s with objects := objs, selectedObjects := newSelection,
                   selectedObject := none, gizmo := none }
    else
      { s with
          objects := objs.map fun o => if o.id = id then withEmissive o 0x333333 else o,
          selectedObjects := [id], selectedObject := some id, gizmo := some id }
  | none =>
      { s with objects := objs, selectedObjects := [],
               selectedObject := none, gizmo := none }

/-- `deleteObject(obj)`: snapshot, detach the gizmo if the deleted object is
the primary selection, drop it from the multi-selection, remove it from the
registry. -/
def deleteObject (id : String) (s : EditorState) : EditorState :=
  let s1 := saveUndoState s
  let s2 :=
    if s1.selectedObject = some id then
      { s1 with gizmo := none, selectedObject := none }
    else s1
  { s2 with selectedObjects := s2.selectedObjects.filter (· ≠ id),
            objects := s2.objects.filter (·.id ≠ id) }

/-- `deleteSelectedObjects()`. -/
def deleteSelectedObjects (s : EditorState) : EditorState :=
  if s.selectedObjects = [] then s
  else
    let s1 := saveUndoState s
    { s1 with
        objects := s1.objects.filter (fun o => o.id ∉ s1.selectedObjects),
        selectedObjects := [], selectedObject := none, gizmo := none }

/-- `selectAllObjects()`: highlight every object, select them all, and if any
exist make the last one primary and attach the gizmo to it.  When the
registry is empty the primary and the gizmo are left untouched. -/
def selectAllObjects (s : EditorState) : EditorState :=
  let objs := s.objects.map (withEmissive · 0x333333)
  let sel := s.objects.map SceneObject.id
  match sel.getLast? with
  | some lastId =>
      { s with objects := objs, selectedObjects := sel,
               selectedObject := some lastId, gizmo := some lastId }
  | none =>
      { s with objects := objs, selectedObjects := sel }

/-- `toggleVisibility(obj)`. -/
def toggleVisibility (id : String) (s : EditorState) : EditorState :=
  { s with objects := s.objects.map fun o =>
      if o.id = id then { o with mesh := { o.mesh with visible := !o.mesh.visible } } else o }

/-- `parseFloat(value) || d`: `parseFloat` returns `NaN` (here `none`) on a
non-numeric string, and both `NaN` and `0` are falsy, so either one selects
the fallback `d`. -/
def jsNumOr (v : Option ℚ) (d : ℚ) : ℚ :=
  match v with
  | none => d
  | some x => if x = 0 then d else x

/-- `THREE.MathUtils.degToRad` in the pi-radian unit convention of this file:
`d * pi / 180` radians is `d / 180` units of pi. -/
def degToRad (d : ℚ) : ℚ :=
  d / 180

/-- A form-field value as delivered by the UI: the string of a text/number
input or the boolean of a checkbox. -/
inductive FieldInput where
  | text (s : String)
  | flag (b : Bool)

/-- The string a field value coerces to. -/
def FieldInput.asString : FieldInput → String
  | .text v => v
  | .flag b => if b then "true" else "false"

/-- JavaScript truthiness of a field value. -/
def FieldInput.truthy : FieldInput → Bool
  | .text v => v ≠ ""
  | .flag b => b

/-- The per-object effect of the `updateObjectProperty` switch.  `pf` models
`parseFloat` (`none` = `NaN`) and `pc` models `Color.set` on a string. -/
def applyProperty (pf : String → Option ℚ) (pc : String → ℕ)
    (property : String) (value : FieldInput) (o : SceneObject) : SceneObject :=
  if property = "name" then { o with name := value.asString }
  else if property = "positionX" then
    { o with mesh := { o.mesh with position :=
        { o.mesh.position with x := jsNumOr (pf value.asString) 0 } } }
  else if property = "positionY" then
    { o with mesh := { o.mesh with position :=
        { o.mesh.position with y := jsNumOr (pf value.asString) 0 } } }
  else if property = "positionZ" then
    { o with mesh := { o.mesh with position :=
        { o.mesh.position with z := jsNumOr (pf value.asString) 0 } } }
  else if property = "rotationX" then
    { o with mesh := { o.mesh with rotation :=
        { o.mesh.rotation with x := degToRad (jsNumOr (pf value.asString) 0) } } }
  else if property = "rotationY" then
    { o with mesh := { o.mesh with rotation :=
        { o.mesh.rotation with y := degToRad (jsNumOr (pf value.asString) 0) } } }
  else if property = "rotationZ" then
    { o with mesh := { o.mesh with rotation :=
        { o.mesh.rotation with z := degToRad (jsNumOr (pf value.asString) 0) } } }
  else if property = "scaleX" then
    { o with mesh := { o.mesh with scale :=
        { o.mesh.scale with x := jsNumOr (pf value.asString) 1 } } }
  else if property = "scaleY" then
    { o with mesh := { o.mesh with scale :=
        { o.mesh.scale with y := jsNumOr (pf value.asString) 1 } } }
  else if property = "scaleZ" then
    { o with mesh := { o.mesh with scale :=
        { o.mesh.scale with z := jsNumOr (pf value.asString) 1 } } }
  else if property = "color" then
    { o with mesh := { o.mesh with material :=
        { o.mesh.material with color := pc value.asString } } }
  else if property = "metalness" then
    { o with mesh := { o.mesh with material :=
        { o.mesh.material with metalness := pf value.asString } } }
  else if property = "roughness" then
    { o with mesh := { o.mesh with material :=
        { o.mesh.material with roughness := pf value.asString } } }
  else if property = "wireframe" then
    { o with mesh := { o.mesh with material :=
        { o.mesh.material with wireframe := value.truthy } } }
  else if property = "opacity" then
    { o with mesh := { o.mesh with material :=
        { o.mesh.material with opacity := pf value.asString,
                               transparent := (match pf value.asString with
                                               | some q => decide (q < 1)
                                               | none => false) } } }
  else if property = "emissive" then
    { o with mesh := { o.mesh with material :=
        { o.mesh.material with emissive := pc value.asString } } }
  else if property = "emissiveIntensity" then
    { o with mesh := { o.mesh with material :=
        { o.mesh.material with emissiveIntensity := pf value.asString } } }
  else o

/-- `updateObjectProperty(property, value)`: a no-op without a selection,
otherwise the switch above applied to the selected object (the code mutates
`selectedObject.mesh` in place, which is the registry entry with that id). -/
def updateObjectProperty (pf : String → Option ℚ) (pc : String → ℕ)
    (property : String) (value : FieldInput) (s : EditorState) : EditorState :=
  match s.selectedObject with
  | none => s
  | some sel =>
      { s with objects := s.objects.map fun o =>
          if o.id = sel then applyProperty pf pc property value o else o }

/-- The closed set of shape kinds handled by the `addPrimitive` switch, in
source order. -/
def knownKinds : List String :=
  ["cube", "sphere", "cylinder", "cone", "torus", "plane", "torusknot",
   "tetrahedron", "octahedron", "dodecahedron", "icosahedron", "ring",
   "capsule", "heart", "star3d", "pyramid", "prism", "tube", "spring",
   "arrow", "gear", "hemisphere", "hexagonprism", "octagonprism", "diamond",
   "crystal", "egg", "vase", "bowl", "goblet", "cross", "moon", "lightning",
   "mushroom", "leaf", "drop", "knot", "helix", "mobius", "ellipsoid",
   "roundedcube", "squarepyramid", "pentagonpyramid", "hexagonpyramid",
   "pentagonprism", "decagonprism", "truncatedcone", "cuboctahedron",
   "truncatedtetrahedron", "truncatedicosahedron", "stellatedoctahedron",
   "parametricwave", "parametricspiral", "parametricsaddle", "klein",
   "sweepstar", "sweepcircle", "lathestar", "latheheart", "trefoil",
   "cinquefoil", "shell", "horn", "bottle", "funnel", "bell", "hourglass",
   "pillar", "ufo", "lens", "barrel", "spike", "wedge", "ramp", "arch",
   "lshape", "tshape", "hshape"]

/-- The geometry-and-name switch of `addPrimitive`: the thirteen plain
geometry classes carry their exact constructor arguments, the decorative
kinds map to their tagged `Geometry.other` value, and any unknown kind falls
through to the default branch, a unit `BoxGeometry(1, 1, 1)` named
`Object_<counter>`. -/
def primitiveGeomName (type : String) (objectCounter : ℕ) : Geometry × String :=
  let n := toString objectCounter
  if type = "cube" then (.box 1 1 1, "Cube_" ++ n)
  else if type = "sphere" then (.sphere (1/2) 32 32, "Sphere_" ++ n)
  else if type = "cylinder" then (.cylinder (1/2) (1/2) 1 32, "Cylinder_" ++ n)
  else if type = "cone" then (.cone (1/2) 1 32, "Cone_" ++ n)
  else if type = "torus" then (.torus (1/2) (1/5) 16 100, "Torus_" ++ n)
  else if type = "plane" then (.plane 2 2, "Plane_" ++ n)
  else if type = "torusknot" then (.torusKnot (2/5) (3/20) 100 16, "TorusKnot_" ++ n)
  else if type = "tetrahedron" then (.tetrahedron (3/5), "Tetrahedron_" ++ n)
  else if type = "octahedron" then (.octahedron (1/2), "Octahedron_" ++ n)
  else if type = "dodecahedron" then (.dodecahedron (1/2), "Dodecahedron_" ++ n)
  else if type = "icosahedron" then (.icosahedron (1/2), "Icosahedron_" ++ n)
  else if type = "ring" then (.ring (3/10) (3/5) 32, "Ring_" ++ n)
  else if type = "capsule" then (.capsule (3/10) (3/5) 8 16, "Capsule_" ++ n)
  else if type = "heart" then (.other "heart", "Heart_" ++ n)
  else if type = "star3d" then (.other "star3d", "Star3D_" ++ n)
  else if type = "pyramid" then (.other "pyramid", "Pyramid_" ++ n)
  else if type = "prism" then (.other "prism", "Prism_" ++ n)
  else if type = "tube" then (.other "tube", "Tube_" ++ n)
  else if type = "spring" then (.other "spring", "Spring_" ++ n)
  else if type = "arrow" then (.other "arrow", "Arrow_" ++ n)
  else if type = "gear" then (.other "gear", "Gear_" ++ n)
  else if type = "hemisphere" then (.other "hemisphere", "Hemisphere_" ++ n)
  else if type = "hexagonprism" then (.other "hexagonprism", "HexagonPrism_" ++ n)
  else if type = "octagonprism" then (.other "octagonprism", "OctagonPrism_" ++ n)
  else if type = "diamond" then (.other "diamond", "Diamond_" ++ n)
  else if type = "crystal" then (.other "crystal", "Crystal_" ++ n)
  else if type = "egg" then (.other "egg", "Egg_" ++ n)
  else if type = "vase" then (.other "vase", "Vase_" ++ n)
  else if type = "bowl" then (.other "bowl", "Bowl_" ++ n)
  else if type = "goblet" then (.other "goblet", "Goblet_" ++ n)
  else if type = "cross" then (.other "cross", "Cross_" ++ n)
  else if type = "moon" then (.other "moon", "Moon_" ++ n)
  else if type = "lightning" then (.other "lightning", "Lightning_" ++ n)
  else if type = "mushroom" then (.other "mushroom", "Mushroom_" ++ n)
  else if type = "leaf" then (.other "leaf", "Leaf_" ++ n)
  else if type = "drop" then (.other "drop", "Drop_" ++ n)
  else if type = "knot" then (.other "knot", "Knot_" ++ n)
  else if type = "helix" then (.other "helix", "Helix_" ++ n)
  else if type = "mobius" then (.other "mobius", "Mobius_" ++ n)
  else if type = "ellipsoid" then (.other "ellipsoid", "Ellipsoid_" ++ n)
  else if type = "roundedcube" then (.other "roundedcube", "RoundedCube_" ++ n)
  else if type = "squarepyramid" then (.other "squarepyramid", "SquarePyramid_" ++ n)
  else if type = "pentagonpyramid" then (.other "pentagonpyramid", "PentagonPyramid_" ++ n)
  else if type = "hexagonpyramid" then (.other "hexagonpyramid", "HexagonPyramid_" ++ n)
  else if type = "pentagonprism" then (.other "pentagonprism", "PentagonPrism_" ++ n)
  else if type = "decagonprism" then (.other "decagonprism", "DecagonPrism_" ++ n)
  else if type = "truncatedcone" then (.other "truncatedcone", "TruncatedCone_" ++ n)
  else if type = "cuboctahedron" then (.other "cuboctahedron", "Cuboctahedron_" ++ n)
  else if type = "truncatedtetrahedron" then (.other "truncatedtetrahedron", "TruncatedTetra_" ++ n)
  else if type = "truncatedicosahedron" then (.other "truncatedicosahedron", "SoccerBall_" ++ n)
  else if type = "stellatedoctahedron" then (.other "stellatedoctahedron", "StellatedOcta_" ++ n)
  else if type = "parametricwave" then (.other "parametricwave", "WaveSurface_" ++ n)
  else if type = "parametricspiral" then (.other "parametricspiral", "SpiralSurface_" ++ n)
  else if type = "parametricsaddle" then (.other "parametricsaddle", "SaddleSurface_" ++ n)
  else if type = "klein" then (.other "klein", "KleinBottle_" ++ n)
  else if type = "sweepstar" then (.other "sweepstar", "SweepStar_" ++ n)
  else if type = "sweepcircle" then (.other "sweepcircle", "SweepCircle_" ++ n)
  else if type = "lathestar" then (.other "lathestar", "LatheStar_" ++ n)
  else if type = "latheheart" then (.other "latheheart", "LatheHeart_" ++ n)
  else if type = "trefoil" then (.other "trefoil", "Trefoil_" ++ n)
  else if type = "cinquefoil" then (.other "cinquefoil", "Cinquefoil_" ++ n)
  else if type = "shell" then (.other "shell", "Shell_" ++ n)
  else if type = "horn" then (.other "horn", "Horn_" ++ n)
  else if type = "bottle" then (.other "bottle", "Bottle_" ++ n)
  else if type = "funnel" then (.other "funnel", "Funnel_" ++ n)
  else if type = "bell" then (.other "bell", "Bell_" ++ n)
  else if type = "hourglass" then (.other "hourglass", "Hourglass_" ++ n)
  else if type = "pillar" then (.other "pillar", "Pillar_" ++ n)
  else if type = "ufo" then (.other "ufo", "UFO_" ++ n)
  else if type = "lens" then (.other "lens", "Lens_" ++ n)
  else if type = "barrel" then (.other "barrel", "Barrel_" ++ n)
  else if type = "spike" then (.other "spike", "Spike_" ++ n)
  else if type = "wedge" then (.other "wedge", "Wedge_" ++ n)
  else if type = "ramp" then (.other "ramp", "Ramp_" ++ n)
  else if type = "arch" then (.other "arch", "Arch_" ++ n)
  else if type = "lshape" then (.other "lshape", "LShape_" ++ n)
  else if type = "tshape" then (.other "tshape", "TShape_" ++ n)
  else if type = "hshape" then (.other "hshape", "HShape_" ++ n)
  else (.box 1 1 1, "Object_" ++ n)

/-- `addPrimitive(type)`: snapshot, build geometry and name, create the
material (`metalness 0.3`, `roughness 0.7`, `transparent`, full opacity, no
emissive, no wireframe; `c` is the randomized `setHSL` color, an environment
input), place the mesh (`y = 0.01` and a `-pi/2` x-rotation for a plane,
`y = 0.5` otherwise), allocate the id from the environment pair `(t, r)`,
append the object, bump the counter, and select the new object. -/
def addPrimitive (type : String) (t : ℕ) (r : String) (c : ℕ) (s : EditorState) : EditorState :=
  let s1 := saveUndoState s
  let gn := primitiveGeomName type s1.objectCounter
  let material : Material :=
    { color := c, metalness := some (3/10), roughness := some (7/10),
      transparent := true, opacity := some 1, emissive := 0,
      emissiveIntensity := some 0, wireframe := false }
  let mesh : Mesh :=
    { geometry := gn.1, material := material,
      position := { x := 0, y := if type = "plane" then 1/100 else 1/2, z := 0 },
      rotation := { x := if type = "plane" then -(1/2) else 0, y := 0, z := 0 },
      scale := { x := 1, y := 1, z := 1 }, visible := true }
  let id := generateId t r
  let newObject : SceneObject := { id := id, name := gn.2, type := type, mesh := mesh }
  let s2 := { s1 with objects := s1.objects ++ [newObject],
                      objectCounter := s1.objectCounter + 1 }
  selectObject (some id) false s2

/-- `duplicateObject(obj)`: snapshot, clone geometry/material/transform with
the position offset by one unit along x, allocate a fresh id, append, and
select the copy.  `mesh.visible` is not copied: a fresh `THREE.Mesh` is
visible. -/
def duplicateObject (id : String) (t : ℕ) (r : String) (s : EditorState) : EditorState :=
  match s.objects.find? (·.id = id) with
  | none => s
  | some obj =>
    let s1 := saveUndoState s
    let mesh : Mesh :=
      { geometry := obj.mesh.geometry, material := obj.mesh.material,
        position := { obj.mesh.position with x := obj.mesh.position.x + 1 },
        rotation := obj.mesh.rotation, scale := obj.mesh.scale, visible := true }
    let nid := generateId t r
    let newObject : SceneObject :=
      { id := nid, name := obj.name ++ "_copy", type := obj.type, mesh := mesh }
    let s2 := { s1 with objects := s1.objects ++ [newObject] }
    selectObject (some nid) false s2

/-- The geometry switch of `undo` rehydration: thirteen rebuildable kinds,
anything else (decorative kinds included) becomes a unit cube. -/
def rehydrateGeometry (type : String) : Geometry :=
  if type = "cube" then .box 1 1 1
  else if type = "sphere" then .sphere (1/2) 32 32
  else if type = "cylinder" then .cylinder (1/2) (1/2) 1 32
  else if type = "cone" then .cone (1/2) 1 32
  else if type = "torus" then .torus (1/2) (1/5) 16 100
  else if type = "plane" then .plane 2 2
  else if type = "torusknot" then .torusKnot (2/5) (3/20) 100 16
  else if type = "tetrahedron" then .tetrahedron (3/5)
  else if type = "octahedron" then .octahedron (1/2)
  else if type = "dodecahedron" then .dodecahedron (1/2)
  else if type = "icosahedron" then .icosahedron (1/2)
  else if type = "ring" then .ring (3/10) (3/5) 32
  else if type = "capsule" then .capsule (3/10) (3/5) 8 16
  else .box 1 1 1

/-- Rebuild one object from a snapshot entry.  The material is
`MeshStandardMaterial({ color, metalness, roughness })`, so every channel
not present in the snapshot takes the `THREE` default: opaque
(`transparent = false`, opacity 1), black emissive with intensity 1, no
wireframe. -/
def rehydrate (sav : SavedObj) : SceneObject :=
  { id := sav.id, name := sav.name, type := sav.type,
    mesh := { geometry := rehydrateGeometry sav.type,
              material := { color := sav.color, metalness := sav.metalness,
                            roughness := sav.roughness, transparent := false,
                            opacity := some 1, emissive := 0,
                            emissiveIntensity := some 1, wireframe := false },
              position := sav.position, rotation := sav.rotation,
              scale := sav.scale, visible := sav.visible } }

/-- `undo()`: a no-op on an empty stack; otherwise pop the most recent
snapshot, replace the registry with its rehydration, clear the primary
selection and detach the gizmo.  The multi-selection array is not cleared by
the source. -/
def undo (s : EditorState) : EditorState :=
  match s.undoStack.getLast? with
  | none => s
  | some previousState =>
      { s with undoStack := s.undoStack.dropLast,
               objects := previousState.map rehydrate,
               selectedObject := none, gizmo := none }

/-- `snapToGrid(value)`: the identity when snapping is off or the grid unit
is non-positive, otherwise `Math.round(value / snapSize) * snapSize`.
JavaScript `Math.round x` is the floor of `x + 1/2`, which is exactly
Mathlib `round` on the rationals. -/
def snapToGrid (snapEnabled : Bool) (snapSize value : ℚ) : ℚ :=
  if snapEnabled = false ∨ snapSize ≤ 0 then value
  else (round (value / snapSize) : ℤ) * snapSize

/-- A node yielded by traversing the scene delivered by the external `GLTF`
codec (specified at its interface boundary): `isMesh` marks the usable mesh
nodes — a malformed or non-mesh node fails this check and is skipped by
the importing loop.  `matIsStandard`/`matColor` model the node material's
`isMeshStandardMaterial` flag and its possibly missing `color`. -/
structure GltfNode where
  isMesh : Bool
  name : String
  matIsStandard : Bool
  matColor : Option ℕ
  material : Material
  geometry : Geometry
  position : Vec3
  rotation : Vec3
  scale : Vec3
  visible : Bool
deriving DecidableEq, Repr

/-- Material coercion of `importModel`: keep a standard material, otherwise
rebuild one from the node color (default `0x888888`) with metalness 0.3 and
roughness 0.7. -/
def importMaterial (node : GltfNode) : Material :=
  if node.matIsStandard then node.material
  else { color := node.matColor.getD 0x888888, metalness := some (3/10),
         roughness := some (7/10), transparent := false, opacity := some 1,
         emissive := 0, emissiveIntensity := some 1, wireframe := false }

/-- `importModel`: snapshot, then hand the blob to the codec.  On failure
(`Except.error`) only an alert is raised and the registry is untouched.  On
success every mesh node is cloned into a new object with a fresh
environment-allocated id and type `imported`; other nodes are skipped.  The
counter grows by the number of meshes and the first imported object is
selected. -/
def importModel (result : Except Unit (List GltfNode)) (env : List (ℕ × String))
    (s : EditorState) : EditorState :=
  let s1 := saveUndoState s
  match result with
  | .error _ => s1
  | .ok nodes =>
    let meshNodes := nodes.filter (·.isMesh)
    let newObjects := (meshNodes.zip env).map fun p =>
      { id := generateId p.2.1 p.2.2,
        name := if p.1.name = "" then "Imported_" ++ toString s1.objectCounter
                else p.1.name,
        type := "imported",
        mesh := { geometry := p.1.geometry, material := importMaterial p.1,
                  position := p.1.position, rotation := p.1.rotation,
                  scale := p.1.scale, visible := p.1.visible } }
    let s2 := { s1 with objects := s1.objects ++ newObjects,
                        objectCounter := s1.objectCounter + newObjects.length }
    match newObjects.head? with
    | some first => selectObject (some first.id) false s2
    | none => s2

/-! Shared concrete sample data for witnesses and counterexamples.  All
rational fields are whole numbers so that closed statements reduce in the
kernel. -/

/-- A concrete cube object. -/
def cubeA : SceneObject :=
  { id := "obj_7_aaa", name := "Cube_0", type := "cube",
    mesh := { geometry := .box 1 1 1,
              material := { color := 0xff0000, metalness := some 1,
                            roughness := some 1, transparent := true,
                            opacity := some 1, emissive := 0x123456,
                            emissiveIntensity := some 0, wireframe := true },
              position := { x := 0, y := 0, z := 0 },
              rotation := { x := 0, y := 0, z := 0 },
              scale := { x := 1, y := 1, z := 1 }, visible := true } }

/-- A second concrete object. -/
def sphereB : SceneObject :=
  { cubeA with id := "obj_8_bbb", name := "Sphere_1", type := "sphere" }

/-- A two-object editor state with nothing selected. -/
def stateAB : EditorState :=
  { objects := [cubeA, sphereB], selectedObject := none, selectedObjects := [],
    gizmo := none, undoStack := [], objectCounter := 2 }

/-- The state of a fresh editor session. -/
def emptyEditor : EditorState :=
  { objects := [], selectedObject := none, selectedObjects := [], gizmo := none,
    undoStack := [], objectCounter := 0 }

/-! ### C5 — grid snapping -/

/-- C5: with snapping off every candidate coordinate is returned unchanged;
with snapping on at grid unit `0.5` the result of `snapToGrid` is the
multiple of `0.5` nearest to the candidate under the round-half-up rule of
`Math.round`; in particular `1.23` lands on `1.0`. -/
theorem snapToGrid_correct :
    (∀ value : ℚ, snapToGrid false (1/2) value = value) ∧
    snapToGrid true (1/2) (123/100) = 1 ∧
    (∀ value : ℚ, ∃ m : ℤ, snapToGrid true (1/2) value = (m : ℚ) * (1/2)) ∧
    (∀ (value : ℚ) (k : ℤ),
      |snapToGrid true (1/2) value - value| ≤ |(k : ℚ) * (1/2) - value|) := by
  have hcond : ¬((true : Bool) = false ∨ (1/2 : ℚ) ≤ 0) := by norm_num
  have hsnap : ∀ value : ℚ,
      snapToGrid true (1/2) value = (round (value / (1/2)) : ℤ) * (1/2) := by
    intro value
    simp only [snapToGrid, if_neg hcond]
  refine ⟨?_, ?_, ?_, ?_⟩
  · intro value
    simp [snapToGrid]
  · rw [hsnap]
    norm_num [round_eq]
  · intro value
    exact ⟨round (value / (1/2)), hsnap value⟩
  · intro value k
    have h2 : value / (1/2 : ℚ) = 2 * value := by ring
    have hr := round_le (2 * value) k
    have e1 : ((round (2 * value) : ℤ) : ℚ) * (1/2) - value
        = (((round (2 * value) : ℤ) : ℚ) - 2 * value) * (1/2) := by ring
    have e2 : (k : ℚ) * (1/2) - value = ((k : ℚ) - 2 * value) * (1/2) := by ring
    rw [hsnap, h2, e1, e2, abs_mul, abs_mul]
    have h3 : |((round (2 * value) : ℤ) : ℚ) - 2 * value| ≤ |(k : ℚ) - 2 * value| := by
      rw [abs_sub_comm, abs_sub_comm ((k : ℚ)) (2 * value)]
      exact hr
    have h4 : |(1/2 : ℚ)| = 1/2 := by norm_num
    rw [h4]
    exact mul_le_mul_of_nonneg_right h3 (by norm_num)

/-! ### C3 — bounded undo history -/

lemma pushSnap_eq_drop (prev : List Snapshot) (st : Snapshot) (h : prev.length ≤ 20) :
    pushSnap prev st = (prev ++ [st]).drop ((prev ++ [st]).length - 20) := by
  by_cases hgt : (prev ++ [st]).length > 20
  · simp only [pushSnap, if_pos hgt]
  · simp only [pushSnap, if_neg hgt]
    have h0 : (prev ++ [st]).length - 20 = 0 := by
      simp only [List.length_append, List.length_singleton] at hgt ⊢
      omega
    rw [h0, List.drop_zero]

lemma pushSnap_length_le (prev : List Snapshot) (st : Snapshot) (h : prev.length ≤ 20) :
    (pushSnap prev st).length ≤ 20 := by
  rw [pushSnap_eq_drop prev st h, List.length_drop]
  omega

lemma pushSnap_getLast (prev : List Snapshot) (st : Snapshot) :
    (pushSnap prev st).getLast? = some st := by
  by_cases hgt : (prev ++ [st]).length > 20
  · simp only [pushSnap, if_pos hgt]
    have hle : (prev ++ [st]).length - 20 ≤ prev.length := by
      simp only [List.length_append, List.length_singleton]
      omega
    rw [List.drop_append_of_le_length hle, List.getLast?_concat]
  · simp only [pushSnap, if_neg hgt]
    exact List.getLast?_concat prev

lemma foldl_pushSnap_drop (xs : List Snapshot) :
    ∀ init : List Snapshot, init.length ≤ 20 →
      List.foldl pushSnap init xs = (init ++ xs).drop ((init ++ xs).length - 20) := by
  induction xs with
  | nil =>
    intro init h
    have h0 : init.length - 20 = 0 := by omega
    simp [h0]
  | cons x xs ih =>
    intro init h
    rw [List.foldl_cons, ih (pushSnap init x) (pushSnap_length_le init x h),
        pushSnap_eq_drop init x h]
    have hd : (init ++ [x]).length - 20 ≤ (init ++ [x]).length := Nat.sub_le _ _
    rw [← List.drop_append_of_le_length hd, List.drop_drop, List.length_drop,
        List.append_cons init x xs, List.length_append, List.length_append]
    congr 1
    simp only [List.length_append, List.length_singleton]
    omega

/-- C3: `saveUndoState` pushes through `pushSnap`; pushing any sequence of
snapshots onto an empty history retains exactly the 20 most recent, the
older ones being evicted from the front; the length never exceeds 20 (so the
21st push simply drops the oldest and never fails); the most recent push is
always on top; and `undo` pops exactly the top snapshot and rehydrates it. -/
theorem undo_history_bound :
    (∀ s : EditorState,
      (saveUndoState s).undoStack = pushSnap s.undoStack (snapshotOf s.objects)) ∧
    (∀ xs : List Snapshot, List.foldl pushSnap [] xs = xs.drop (xs.length - 20)) ∧
    (∀ xs : List Snapshot, (List.foldl pushSnap [] xs).length = min xs.length 20) ∧
    (∀ (prev : List Snapshot) (st : Snapshot), (pushSnap prev st).getLast? = some st) ∧
    (∀ (s : EditorState) (snap : Snapshot), s.undoStack.getLast? = some snap →
      (undo s).objects = snap.map rehydrate ∧ (undo s).undoStack = s.undoStack.dropLast) := by
  have hfold : ∀ xs : List Snapshot, List.foldl pushSnap [] xs = xs.drop (xs.length - 20) := by
    intro xs
    have := foldl_pushSnap_drop xs [] (by simp)
    simpa using this
  refine ⟨fun s => rfl, hfold, ?_, pushSnap_getLast, ?_⟩
  · intro xs
    rw [hfold, List.length_drop]
    omega
  · intro s snap h
    unfold undo
    rw [h]
    exact ⟨rfl, rfl⟩

/-- C3 witness: on a history holding one snapshot of an empty scene, `undo`
rebuilds the empty scene and pops the stack. -/
theorem undo_history_bound_witness :
    (undo { objects := [cubeA], selectedObject := none, selectedObjects := [],
            gizmo := none, undoStack := [[]], objectCounter := 1 }).objects
        = ([] : Snapshot).map rehydrate ∧
    (undo { objects := [cubeA], selectedObject := none, selectedObjects := [],
            gizmo := none, undoStack := [[]], objectCounter := 1 }).undoStack
        = ([[]] : List Snapshot).dropLast :=
  undo_history_bound.2.2.2.2
    { objects := [cubeA], selectedObject := none, selectedObjects := [],
      gizmo := none, undoStack := [[]], objectCounter := 1 } [] rfl

/-! ### C6 — unknown shape kinds fall back to a unit cube -/

/-- C6: for every shape kind outside the closed known set, `addPrimitive`
geometry construction does not fail: the default switch branch produces a
unit `1 x 1 x 1` box named `Object_<counter>`, so an object is still built. -/
theorem unknown_kind_unit_cube (type : String) (n : ℕ) (h : type ∉ knownKinds) :
    primitiveGeomName type n = (Geometry.box 1 1 1, "Object_" ++ toString n) := by
  unfold primitiveGeomName
  repeat rw [if_neg (fun hh => h (by rw [hh]; decide))]

/-- C6 witness: the unknown kind `teapot` yields the unit cube. -/
theorem unknown_kind_unit_cube_witness :
    primitiveGeomName "teapot" 0 = (Geometry.box 1 1 1, "Object_" ++ toString 0) :=
  unknown_kind_unit_cube "teapot" 0 (by decide)

/-! ### C7 / C10 — numeric field parsing fallbacks -/

/-- C7: a malformed (non-numeric) string — one on which `parseFloat` yields
`NaN` — submitted to a numeric property field is not rejected: every
position and rotation axis falls back to `0` and every scale axis falls
back to `1`; and with a selection present `updateObjectProperty` applies
exactly this per-object edit to the selected object. -/
theorem malformed_numeric_input_defaults (pf : String → Option ℚ) (pc : String → ℕ)
    (v : String) (hv : pf v = none) :
    (∀ o : SceneObject,
      (applyProperty pf pc "positionX" (.text v) o).mesh.position.x = 0 ∧
      (applyProperty pf pc "positionY" (.text v) o).mesh.position.y = 0 ∧
      (applyProperty pf pc "positionZ" (.text v) o).mesh.position.z = 0 ∧
      (applyProperty pf pc "rotationX" (.text v) o).mesh.rotation.x = 0 ∧
      (applyProperty pf pc "rotationY" (.text v) o).mesh.rotation.y = 0 ∧
      (applyProperty pf pc "rotationZ" (.text v) o).mesh.rotation.z = 0 ∧
      (applyProperty pf pc "scaleX" (.text v) o).mesh.scale.x = 1 ∧
      (applyProperty pf pc "scaleY" (.text v) o).mesh.scale.y = 1 ∧
      (applyProperty pf pc "scaleZ" (.text v) o).mesh.scale.z = 1) ∧
    (∀ (s : EditorState) (i : String), s.selectedObject = some i →
      ∀ (property : String) (value : FieldInput),
        (updateObjectProperty pf pc property value s).objects
          = s.objects.map fun o =>
              if o.id = i then applyProperty pf pc property value o else o) := by
  constructor
  · intro o
    refine ⟨?_, ?_, ?_, ?_, ?_, ?_, ?_, ?_, ?_⟩ <;>
      simp [applyProperty, FieldInput.asString, hv, jsNumOr, degToRad]
  · intro s i hsel property value
    simp [updateObjectProperty, hsel]

/-- C7 witness: at the malformed input `abc`, position falls to `0` and
scale falls to `1` on a concrete object. -/
theorem malformed_numeric_input_defaults_witness :
    (applyProperty (fun _ => none) (fun _ => 0) "positionX" (.text "abc") cubeA).mesh.position.x = 0 ∧
    (applyProperty (fun _ => none) (fun _ => 0) "scaleX" (.text "abc") cubeA).mesh.scale.x = 1 :=
  ⟨((malformed_numeric_input_defaults (fun _ => none) (fun _ => 0) "abc" rfl).1 cubeA).1,
   ((malformed_numeric_input_defaults (fun _ => none) (fun _ => 0) "abc" rfl).1 cubeA).2.2.2.2.2.2.1⟩

/-- C10: an input that parses to the number `0` is falsy in JavaScript, so
the `|| 1` fallback of the scale cases replaces it by `1` — a zero scale is
unreachable through the numeric editor — while the `|| 0` fallback of the
position and rotation cases stores an exact `0`. -/
theorem zero_scale_coerced_to_one (pf : String → Option ℚ) (pc : String → ℕ)
    (v : String) (hv : pf v = some 0) :
    ∀ o : SceneObject,
      (applyProperty pf pc "scaleX" (.text v) o).mesh.scale.x = 1 ∧
      (applyProperty pf pc "scaleY" (.text v) o).mesh.scale.y = 1 ∧
      (applyProperty pf pc "scaleZ" (.text v) o).mesh.scale.z = 1 ∧
      (applyProperty pf pc "positionX" (.text v) o).mesh.position.x = 0 ∧
      (applyProperty pf pc "positionY" (.text v) o).mesh.position.y = 0 ∧
      (applyProperty pf pc "positionZ" (.text v) o).mesh.position.z = 0 ∧
      (applyProperty pf pc "rotationX" (.text v) o).mesh.rotation.x = 0 ∧
      (applyProperty pf pc "rotationY" (.text v) o).mesh.rotation.y = 0 ∧
      (applyProperty pf pc "rotationZ" (.text v) o).mesh.rotation.z = 0 := by
  intro o
  refine ⟨?_, ?_, ?_, ?_, ?_, ?_, ?_, ?_, ?_⟩ <;>
    simp [applyProperty, FieldInput.asString, hv, jsNumOr, degToRad]

/-- C10 witness: the input string `0` (parsed to the number `0`) gives scale
`1` and position `0` on a concrete object. -/
theorem zero_scale_coerced_to_one_witness :
    (applyProperty (fun _ => some 0) (fun _ => 0) "scaleX" (.text "0") cubeA).mesh.scale.x = 1 ∧
    (applyProperty (fun _ => some 0) (fun _ => 0) "positionX" (.text "0") cubeA).mesh.position.x = 0 :=
  ⟨(zero_scale_coerced_to_one (fun _ => some 0) (fun _ => 0) "0" rfl cubeA).1,
   (zero_scale_coerced_to_one (fun _ => some 0) (fun _ => 0) "0" rfl cubeA).2.2.2.1⟩

/-! ### C1 — undo round-trip -/

lemma savedOf_rehydrate (sav : SavedObj) : savedOf (rehydrate sav) = sav := rfl

lemma selectObject_undoStack (obj : Option String) (b : Bool) (s : EditorState) :
    (selectObject obj b s).undoStack = s.undoStack := by
  cases obj with
  | none => rfl
  | some id =>
    cases b with
    | false => rfl
    | true =>
      unfold selectObject
      cases h : (toggledSelection id s.selectedObjects).getLast? <;> simp [h]

lemma updateObjectProperty_undoStack (pf : String → Option ℚ) (pc : String → ℕ)
    (property : String) (value : FieldInput) (s : EditorState) :
    (updateObjectProperty pf pc property value s).undoStack = s.undoStack := by
  unfold updateObjectProperty
  cases h : s.selectedObject <;> simp [h]

lemma toggleVisibility_undoStack (id : String) (s : EditorState) :
    (toggleVisibility id s).undoStack = s.undoStack := rfl

lemma addPrimitive_undoStack (kind : String) (t : ℕ) (r : String) (c : ℕ) (s : EditorState) :
    (addPrimitive kind t r c s).undoStack = pushSnap s.undoStack (snapshotOf s.objects) := by
  unfold addPrimitive
  rw [selectObject_undoStack]
  rfl

lemma deleteObject_undoStack (id : String) (s : EditorState) :
    (deleteObject id s).undoStack = pushSnap s.undoStack (snapshotOf s.objects) := by
  unfold deleteObject
  dsimp only
  split <;> rfl

/-- The single-object registry mutations quantified over by the round-trip
claim: a property edit through `updateObjectProperty` (transform edit,
material edit, or rename), a visibility toggle, an add, and a delete. -/
inductive Mutation where
  | propEdit (pf : String → Option ℚ) (pc : String → ℕ) (property : String) (value : FieldInput)
  | visToggle (id : String)
  | add (kind : String) (t : ℕ) (r : String) (c : ℕ)
  | del (id : String)

/-- Run one mutation. -/
def applyMutation : Mutation → EditorState → EditorState
  | .propEdit pf pc property value, s => updateObjectProperty pf pc property value s
  | .visToggle id, s => toggleVisibility id s
  | .add kind t r c, s => addPrimitive kind t r c s
  | .del id, s => deleteObject id s

lemma applyMutation_getLast (m : Mutation) (s : EditorState) :
    (applyMutation m (saveUndoState s)).undoStack.getLast? = some (snapshotOf s.objects) := by
  cases m with
  | propEdit pf pc property value =>
    simp only [applyMutation]
    rw [updateObjectProperty_undoStack]
    exact pushSnap_getLast _ _
  | visToggle id =>
    simp only [applyMutation]
    rw [toggleVisibility_undoStack]
    exact pushSnap_getLast _ _
  | add kind t r c =>
    simp only [applyMutation]
    rw [addPrimitive_undoStack]
    exact pushSnap_getLast _ _
  | del id =>
    simp only [applyMutation]
    rw [deleteObject_undoStack]
    exact pushSnap_getLast _ _

/-- C1 (amended): for every registry state and every single mutation
(property edit, rename, visibility toggle, add, delete), snapshotting and
then undoing restores, for every object, exactly the snapshot-captured
fields — id, name, shape kind, position, rotation, scale, color, metalness,
roughness, visibility (the image under `savedOf`) — and restores the live
id set exactly.  The channels absent from the snapshot (opacity, emissive,
emissive intensity, wireframe, transparency) are not restored; they reset
to material defaults, as the counterexample shows. -/
theorem undo_restores_snapshot_fields (s : EditorState) (m : Mutation) :
    (undo (applyMutation m (saveUndoState s))).objects.map savedOf = s.objects.map savedOf ∧
    liveIds (undo (applyMutation m (saveUndoState s))) = liveIds s := by
  have h := applyMutation_getLast m s
  have hobj : (undo (applyMutation m (saveUndoState s))).objects
      = (snapshotOf s.objects).map rehydrate := by
    unfold undo
    rw [h]
  constructor
  · rw [hobj, snapshotOf, List.map_map, List.map_map]
    congr 1
  · rw [liveIds, liveIds, hobj, snapshotOf, List.map_map, List.map_map]
    congr 1

/-- A one-object editor state whose object carries a wireframe flag and a
user-set emissive color, with that object selected. -/
def stateW : EditorState :=
  { objects := [cubeA], selectedObject := some "obj_7_aaa",
    selectedObjects := ["obj_7_aaa"], gizmo := some "obj_7_aaa",
    undoStack := [], objectCounter := 1 }

/-- C1 counterexample: snapshot, rename the selected object, undo.  The
object comes back with its id, but its wireframe flag (`true` before) and
its emissive color (`0x123456` before) are reset to `false` and `0x000000`:
undo does not restore every field listed by the claim. -/
theorem undo_roundtrip_counterexample :
    cubeA.mesh.material.wireframe = true ∧
    cubeA.mesh.material.emissive = 0x123456 ∧
    (undo (applyMutation
        (.propEdit (fun _ => none) (fun _ => 0) "name" (.text "Renamed"))
        (saveUndoState stateW))).objects.map
        (fun o => (o.mesh.material.wireframe, o.mesh.material.emissive))
      = [(false, 0)] ∧
    (undo (applyMutation
        (.propEdit (fun _ => none) (fun _ => 0) "name" (.text "Renamed"))
        (saveUndoState stateW))).objects.map SceneObject.id = [cubeA.id] := by
  refine ⟨rfl, rfl, ?_, ?_⟩ <;> rfl

/-! ### C9 — selection clobbers user emissive colors -/

lemma selectObject_none_objects (b : Bool) (s : EditorState) :
    (selectObject none b s).objects = s.objects.map (withEmissive · 0) := rfl

lemma selectObject_plain_objects (id : String) (s : EditorState) :
    (selectObject (some id) false s).objects
      = (s.objects.map (withEmissive · 0)).map
          (fun o => if o.id = id then withEmissive o 0x333333 else o) := rfl

lemma selectObject_toggle_objects (id : String) (s : EditorState) :
    (selectObject (some id) true s).objects
      = (s.objects.map (withEmissive · 0)).map
          (fun o => if o.id ∈ toggledSelection id s.selectedObjects
                    then withEmissive o 0x333333 else o) := by
  cases hL : (toggledSelection id s.selectedObjects).getLast? <;>
    simp only [selectObject, hL] <;> rfl

/-- C9: every `selectObject` call — plain, toggle, or `selectObject(null)` —
first resets the emissive of every live object to black and then re-applies
only the fixed `0x333333` tint to the new selection, so after any call every
live emissive is `0x000000` or `0x333333` and a user-assigned emissive color
never survives; after `selectObject(null)` all are black, and after a plain
select every non-selected object is black. -/
theorem selection_clobbers_emissive (s : EditorState) (obj : Option String) (b : Bool) :
    (∀ x ∈ (selectObject obj b s).objects,
        x.mesh.material.emissive = 0 ∨ x.mesh.material.emissive = 0x333333) ∧
    (∀ x ∈ (selectObject none b s).objects, x.mesh.material.emissive = 0) ∧
    (∀ id : String, ∀ x ∈ (selectObject (some id) false s).objects,
        x.id ≠ id → x.mesh.material.emissive = 0) := by
  refine ⟨?_, ?_, ?_⟩
  · intro x hx
    cases obj with
    | none =>
      rw [selectObject_none_objects] at hx
      obtain ⟨y, -, rfl⟩ := List.mem_map.1 hx
      left
      rfl
    | some id =>
      cases b with
      | false =>
        rw [selectObject_plain_objects] at hx
        obtain ⟨y1, hy1, rfl⟩ := List.mem_map.1 hx
        obtain ⟨y, -, rfl⟩ := List.mem_map.1 hy1
        by_cases hm : (withEmissive y 0).id = id
        · rw [if_pos hm]
          right
          rfl
        · rw [if_neg hm]
          left
          rfl
      | true =>
        rw [selectObject_toggle_objects] at hx
        obtain ⟨y1, hy1, rfl⟩ := List.mem_map.1 hx
        obtain ⟨y, -, rfl⟩ := List.mem_map.1 hy1
        by_cases hm : (withEmissive y 0).id ∈ toggledSelection id s.selectedObjects
        · rw [if_pos hm]
          right
          rfl
        · rw [if_neg hm]
          left
          rfl
  · intro x hx
    rw [selectObject_none_objects] at hx
    obtain ⟨y, -, rfl⟩ := List.mem_map.1 hx
    rfl
  · intro id x hx hne
    rw [selectObject_plain_objects] at hx
    obtain ⟨y1, hy1, rfl⟩ := List.mem_map.1 hx
    obtain ⟨y, -, rfl⟩ := List.mem_map.1 hy1
    by_cases hm : (withEmissive y 0).id = id
    · rw [if_pos hm] at hne ⊢
      exact absurd hm (by simpa using hne)
    · rw [if_neg hm]
      rfl

/-- C9 witness: selecting the sole object of `stateW` leaves its emissive at
black or at the selection tint (here the tint), despite its user emissive. -/
theorem selection_clobbers_emissive_witness :
    (withEmissive (withEmissive cubeA 0) 0x333333).mesh.material.emissive = 0 ∨
    (withEmissive (withEmissive cubeA 0) 0x333333).mesh.material.emissive = 0x333333 :=
  (selection_clobbers_emissive stateW (some "obj_7_aaa") false).1
    (withEmissive (withEmissive cubeA 0) 0x333333) (List.Mem.head _)


/-! ### C2 — selection invariants -/

/-- The selection-affecting operations of the claim: plain select, toggle
(modifier) select, `selectObject(null)`, select-all, and delete. -/
inductive SelOp where
  | select (id : String)
  | toggle (id : String)
  | deselect
  | selectAll
  | delete (id : String)
deriving DecidableEq, Repr

/-- Run one selection operation. -/
def applySelOp : SelOp → EditorState → EditorState
  | .select id, s => selectObject (some id) false s
  | .toggle id, s => selectObject (some id) true s
  | .deselect, s => selectObject none false s
  | .selectAll, s => selectAllObjects s
  | .delete id, s => deleteObject id s

/-- Run a sequence of selection operations. -/
def runSelOps (s : EditorState) : List SelOp → EditorState
  | [] => s
  | op :: ops => runSelOps (applySelOp op s) ops

/-- The strong selection invariant actually maintained by the code: every
selected id is live, the primary selection is the most recently added member
of `selectedObjects`, and the gizmo is attached exactly to the primary. -/
def SelInv (s : EditorState) : Prop :=
  (∀ i ∈ s.selectedObjects, i ∈ liveIds s) ∧
  s.selectedObject = s.selectedObjects.getLast? ∧
  s.gizmo = s.selectedObject

/-- The invariant stated by the claim: the primary is a member of the
multi-selection whenever it is non-empty, and the gizmo is attached iff the
multi-selection is non-empty. -/
def WeakSelInv (s : EditorState) : Prop :=
  (s.selectedObjects ≠ [] → ∃ p, s.selectedObject = some p ∧ p ∈ s.selectedObjects) ∧
  (s.gizmo.isSome ↔ s.selectedObjects ≠ [])

/-- Side condition of one step: selects name a live object (as every UI call
site does, via ray pick or the object panel), and a delete does not remove
the primary of a multi-selection holding two or more objects.  The
counterexample below shows the invariant genuinely fails without the last
condition. -/
def okSelOp : SelOp → EditorState → Prop
  | .select id, s => id ∈ liveIds s
  | .toggle id, s => id ∈ liveIds s
  | .deselect, _ => True
  | .selectAll, _ => True
  | .delete id, s => ¬(s.selectedObject = some id ∧ 2 ≤ s.selectedObjects.length)

/-- All side conditions hold along a run. -/
def okRun : EditorState → List SelOp → Prop
  | _, [] => True
  | s, op :: ops => okSelOp op s ∧ okRun (applySelOp op s) ops

lemma mem_of_getLast {α : Type} {l : List α} {a : α} (h : l.getLast? = some a) : a ∈ l := by
  induction l with
  | nil => simp at h
  | cons x xs ih =>
    cases xs with
    | nil =>
      simp at h
      simp [h]
    | cons y ys =>
      rw [List.getLast?_cons_cons] at h
      exact List.mem_cons_of_mem _ (ih h)

lemma getLast?_filter_ne {l : List String} {p id : String}
    (h : l.getLast? = some p) (hne : p ≠ id) :
    (l.filter (· ≠ id)).getLast? = some p := by
  obtain ⟨l', rfl⟩ := List.getLast?_eq_some_iff.1 h
  rw [List.filter_append]
  have hp : [p].filter (· ≠ id) = [p] := by simp [List.filter_cons, hne]
  rw [hp, List.getLast?_concat]

lemma liveIds_map_preserve (f : SceneObject → SceneObject) (l : List SceneObject)
    (hf : ∀ o, (f o).id = o.id) :
    (l.map f).map SceneObject.id = l.map SceneObject.id := by
  induction l with
  | nil => rfl
  | cons x xs ih => simp [hf, ih]

lemma liveIds_selectObject (obj : Option String) (b : Bool) (s : EditorState) :
    liveIds (selectObject obj b s) = liveIds s := by
  cases obj with
  | none =>
    unfold liveIds
    rw [selectObject_none_objects,
        liveIds_map_preserve (withEmissive · 0) s.objects (fun o => rfl)]
  | some id =>
    cases b with
    | false =>
      unfold liveIds
      rw [selectObject_plain_objects,
          liveIds_map_preserve (fun o => if o.id = id then withEmissive o 0x333333 else o)
            (s.objects.map (withEmissive · 0)) (fun o => by dsimp only; split <;> rfl),
          liveIds_map_preserve (withEmissive · 0) s.objects (fun o => rfl)]
    | true =>
      unfold liveIds
      rw [selectObject_toggle_objects,
          liveIds_map_preserve
            (fun o => if o.id ∈ toggledSelection id s.selectedObjects
                      then withEmissive o 0x333333 else o)
            (s.objects.map (withEmissive · 0)) (fun o => by dsimp only; split <;> rfl),
          liveIds_map_preserve (withEmissive · 0) s.objects (fun o => rfl)]

lemma selectAllObjects_objects (s : EditorState) :
    (selectAllObjects s).objects = s.objects.map (withEmissive · 0x333333) := by
  cases hL : (s.objects.map SceneObject.id).getLast? <;>
    simp only [selectAllObjects, hL]

lemma liveIds_selectAllObjects (s : EditorState) :
    liveIds (selectAllObjects s) = liveIds s := by
  unfold liveIds
  rw [selectAllObjects_objects,
      liveIds_map_preserve (withEmissive · 0x333333) s.objects (fun o => rfl)]

lemma selectObject_plain_sel (id : String) (s : EditorState) :
    (selectObject (some id) false s).selectedObjects = [id] := rfl

lemma selectObject_plain_primary (id : String) (s : EditorState) :
    (selectObject (some id) false s).selectedObject = some id := rfl

lemma selectObject_plain_gizmo (id : String) (s : EditorState) :
    (selectObject (some id) false s).gizmo = some id := rfl

lemma selectObject_none_fields (b : Bool) (s : EditorState) :
    (selectObject none b s).selectedObjects = [] ∧
    (selectObject none b s).selectedObject = none ∧
    (selectObject none b s).gizmo = none := ⟨rfl, rfl, rfl⟩

lemma selectObject_toggle_sel (id : String) (s : EditorState) :
    (selectObject (some id) true s).selectedObjects
      = toggledSelection id s.selectedObjects := by
  cases hL : (toggledSelection id s.selectedObjects).getLast? <;>
    simp only [selectObject, hL] <;> rfl

lemma selectObject_toggle_primary (id : String) (s : EditorState) :
    (selectObject (some id) true s).selectedObject
      = (toggledSelection id s.selectedObjects).getLast? := by
  cases hL : (toggledSelection id s.selectedObjects).getLast? <;>
    simp only [selectObject, hL] <;> rfl

lemma selectObject_toggle_gizmo (id : String) (s : EditorState) :
    (selectObject (some id) true s).gizmo
      = (toggledSelection id s.selectedObjects).getLast? := by
  cases hL : (toggledSelection id s.selectedObjects).getLast? <;>
    simp only [selectObject, hL] <;> rfl

lemma deleteObject_sel (id : String) (s : EditorState) :
    (deleteObject id s).selectedObjects = s.selectedObjects.filter (· ≠ id) := by
  unfold deleteObject
  dsimp only
  split <;> rfl

lemma deleteObject_objects (id : String) (s : EditorState) :
    (deleteObject id s).objects = s.objects.filter (·.id ≠ id) := by
  unfold deleteObject
  dsimp only
  split <;> rfl

lemma deleteObject_primary_pos (id : String) (s : EditorState)
    (h : s.selectedObject = some id) :
    (deleteObject id s).selectedObject = none ∧ (deleteObject id s).gizmo = none := by
  unfold deleteObject
  dsimp only
  rw [if_pos (show (saveUndoState s).selectedObject = some id from h)]
  constructor <;> trivial

lemma deleteObject_primary_neg (id : String) (s : EditorState)
    (h : ¬s.selectedObject = some id) :
    (deleteObject id s).selectedObject = s.selectedObject ∧
    (deleteObject id s).gizmo = s.gizmo := by
  unfold deleteObject
  dsimp only
  rw [if_neg (show ¬(saveUndoState s).selectedObject = some id from h)]
  constructor <;> trivial

lemma selectAllObjects_fields (s : EditorState) :
    (selectAllObjects s).selectedObjects = s.objects.map SceneObject.id ∧
    ((s.objects.map SceneObject.id).getLast? = none →
      (selectAllObjects s).selectedObject = s.selectedObject ∧
      (selectAllObjects s).gizmo = s.gizmo) ∧
    (∀ lastId, (s.objects.map SceneObject.id).getLast? = some lastId →
      (selectAllObjects s).selectedObject = some lastId ∧
      (selectAllObjects s).gizmo = some lastId) := by
  refine ⟨?_, ?_, ?_⟩
  · cases hL : (s.objects.map SceneObject.id).getLast? <;>
      simp only [selectAllObjects, hL]
  · intro hL
    simp only [selectAllObjects, hL]
    constructor <;> trivial
  · intro lastId hL
    simp only [selectAllObjects, hL]
    constructor <;> trivial

lemma selInv_select (s : EditorState) (id : String) (hid : id ∈ liveIds s) :
    SelInv (selectObject (some id) false s) := by
  refine ⟨?_, ?_, ?_⟩
  · intro i hi
    rw [selectObject_plain_sel] at hi
    obtain rfl : i = id := by simpa using hi
    rw [liveIds_selectObject]
    exact hid
  · rw [selectObject_plain_primary, selectObject_plain_sel]
    rfl
  · rw [selectObject_plain_gizmo, selectObject_plain_primary]

lemma selInv_toggle (s : EditorState) (id : String) (h : SelInv s) (hid : id ∈ liveIds s) :
    SelInv (selectObject (some id) true s) := by
  obtain ⟨hsub, -, -⟩ := h
  refine ⟨?_, ?_, ?_⟩
  · intro i hi
    rw [selectObject_toggle_sel] at hi
    rw [liveIds_selectObject]
    unfold toggledSelection at hi
    split at hi
    · exact hsub i (List.mem_of_mem_filter hi)
    · rcases List.mem_append.1 hi with h1 | h2
      · exact hsub i h1
      · obtain rfl : i = id := by simpa using h2
        exact hid
  · rw [selectObject_toggle_primary, selectObject_toggle_sel]
  · rw [selectObject_toggle_gizmo, selectObject_toggle_primary]

lemma selInv_deselect (s : EditorState) (b : Bool) : SelInv (selectObject none b s) := by
  obtain ⟨h1, h2, h3⟩ := selectObject_none_fields b s
  refine ⟨?_, ?_, ?_⟩
  · intro i hi
    rw [h1] at hi
    simp at hi
  · rw [h2, h1]
    rfl
  · rw [h3, h2]

lemma selInv_selectAll (s : EditorState) (h : SelInv s) : SelInv (selectAllObjects s) := by
  obtain ⟨hsub, hprim, hgiz⟩ := h
  obtain ⟨hsel, hnone, hsome⟩ := selectAllObjects_fields s
  cases hL : (s.objects.map SceneObject.id).getLast? with
  | some lastId =>
    obtain ⟨hp, hg⟩ := hsome lastId hL
    refine ⟨?_, ?_, ?_⟩
    · intro i hi
      rw [hsel] at hi
      rw [liveIds_selectAllObjects]
      exact hi
    · rw [hp, hsel, hL]
    · rw [hg, hp]
  | none =>
    obtain ⟨hp, hg⟩ := hnone hL
    have hempty : s.objects.map SceneObject.id = [] := List.getLast?_eq_none_iff.1 hL
    have hselempty : s.selectedObjects = [] := by
      cases hs : s.selectedObjects with
      | nil => rfl
      | cons a as =>
        have hmem := hsub a (by rw [hs]; exact List.mem_cons_self a as)
        unfold liveIds at hmem
        rw [hempty] at hmem
        simp at hmem
    refine ⟨?_, ?_, ?_⟩
    · intro i hi
      rw [hsel, hempty] at hi
      simp at hi
    · rw [hp, hsel, hempty, hprim, hselempty]
    · rw [hg, hp]
      exact hgiz

lemma selInv_delete (s : EditorState) (id : String) (h : SelInv s)
    (hok : ¬(s.selectedObject = some id ∧ 2 ≤ s.selectedObjects.length)) :
    SelInv (deleteObject id s) := by
  obtain ⟨hsub, hprim, hgiz⟩ := h
  have hmemlive : ∀ i, i ∈ liveIds s → i ≠ id → i ∈ liveIds (deleteObject id s) := by
    intro i hi hne
    unfold liveIds at hi ⊢
    rw [deleteObject_objects]
    obtain ⟨o, ho, rfl⟩ := List.mem_map.1 hi
    exact List.mem_map.2 ⟨o, List.mem_filter.2 ⟨ho, by simpa using hne⟩, rfl⟩
  by_cases hP : s.selectedObject = some id
  · have hlen : s.selectedObjects.length ≤ 1 := by
      by_contra hg
      exact hok ⟨hP, by omega⟩
    have hLast : s.selectedObjects.getLast? = some id := hprim.symm.trans hP
    have hsel1 : s.selectedObjects = [id] := by
      cases hs : s.selectedObjects with
      | nil => rw [hs] at hLast; simp at hLast
      | cons a as =>
        cases as with
        | nil =>
          rw [hs] at hLast
          simp at hLast
          rw [hLast]
        | cons b bs =>
          rw [hs] at hlen
          simp at hlen
    obtain ⟨hp, hg⟩ := deleteObject_primary_pos id s hP
    refine ⟨?_, ?_, ?_⟩
    · intro i hi
      rw [deleteObject_sel, hsel1] at hi
      simp [List.filter_cons] at hi
    · rw [hp, deleteObject_sel, hsel1]
      simp [List.filter_cons]
    · rw [hg, hp]
  · obtain ⟨hp, hg⟩ := deleteObject_primary_neg id s hP
    refine ⟨?_, ?_, ?_⟩
    · intro i hi
      rw [deleteObject_sel] at hi
      obtain ⟨hi1, hi2⟩ := List.mem_filter.1 hi
      exact hmemlive i (hsub i hi1) (by simpa using hi2)
    · rw [hp, deleteObject_sel]
      cases hprev : s.selectedObjects.getLast? with
      | none =>
        have : s.selectedObjects = [] := List.getLast?_eq_none_iff.1 hprev
        rw [hprim, hprev, this]
        rfl
      | some p =>
        have hpne : p ≠ id := by
          intro hpe
          exact hP (by rw [hprim, hprev, hpe])
        rw [hprim, hprev, getLast?_filter_ne hprev hpne]
    · rw [hg, hp, hgiz]

lemma weak_of_selInv (s : EditorState) (h : SelInv s) : WeakSelInv s := by
  obtain ⟨hsub, hprim, hgiz⟩ := h
  constructor
  · intro hne
    cases hL : s.selectedObjects.getLast? with
    | none => exact absurd (List.getLast?_eq_none_iff.1 hL) hne
    | some p => exact ⟨p, hprim.trans hL, mem_of_getLast hL⟩
  · rw [hgiz, hprim]
    exact List.getLast?_isSome

/-- C2 (amended): starting from any state satisfying the selection
invariant, any sequence of plain-select / toggle-select / deselect /
select-all / delete operations on live objects preserves it — and hence the
claimed invariant (primary is a member of a non-empty selection, gizmo
attached iff selection non-empty) — provided no delete targets the primary
of a multi-selection with at least two members.  The unrestricted claim is
refuted by the counterexample below. -/
theorem selection_invariants (s : EditorState) (ops : List SelOp)
    (h : SelInv s) (hok : okRun s ops) :
    SelInv (runSelOps s ops) ∧ WeakSelInv (runSelOps s ops) := by
  have main : ∀ (ops : List SelOp) (s : EditorState),
      SelInv s → okRun s ops → SelInv (runSelOps s ops) := by
    intro ops
    induction ops with
    | nil => intro s hs _; exact hs
    | cons op ops ih =>
      intro s hs hok
      obtain ⟨h1, h2⟩ := hok
      refine ih _ ?_ h2
      cases op with
      | select id => exact selInv_select s id h1
      | toggle id => exact selInv_toggle s id hs h1
      | deselect => exact selInv_deselect s false
      | selectAll => exact selInv_selectAll s hs
      | delete id => exact selInv_delete s id hs h1
  exact ⟨main ops s h hok, weak_of_selInv _ (main ops s h hok)⟩

/-- C2 counterexample: select A, toggle-select B (selection `[A, B]`,
primary B), then delete B.  `deleteObject` clears the primary and detaches
the gizmo but only filters B out of the selection, leaving the non-empty
selection `[A]` with no primary and no gizmo: both conjuncts of the claimed
invariant fail. -/
theorem selection_invariants_counterexample :
    (runSelOps stateAB [SelOp.select "obj_7_aaa", SelOp.toggle "obj_8_bbb",
        SelOp.delete "obj_8_bbb"]).selectedObjects = ["obj_7_aaa"] ∧
    (runSelOps stateAB [SelOp.select "obj_7_aaa", SelOp.toggle "obj_8_bbb",
        SelOp.delete "obj_8_bbb"]).selectedObject = none ∧
    (runSelOps stateAB [SelOp.select "obj_7_aaa", SelOp.toggle "obj_8_bbb",
        SelOp.delete "obj_8_bbb"]).gizmo = none ∧
    ¬ WeakSelInv (runSelOps stateAB [SelOp.select "obj_7_aaa", SelOp.toggle "obj_8_bbb",
        SelOp.delete "obj_8_bbb"]) := by
  have h1 : (runSelOps stateAB [SelOp.select "obj_7_aaa", SelOp.toggle "obj_8_bbb",
      SelOp.delete "obj_8_bbb"]).selectedObjects = ["obj_7_aaa"] := by decide
  have h2 : (runSelOps stateAB [SelOp.select "obj_7_aaa", SelOp.toggle "obj_8_bbb",
      SelOp.delete "obj_8_bbb"]).selectedObject = none := by decide
  refine ⟨h1, h2, by decide, ?_⟩
  intro hw
  obtain ⟨p, hp, -⟩ := hw.1 (by rw [h1]; simp)
  rw [h2] at hp
  simp at hp

/-- C2 witness: a plain select of a live object from the two-object state
satisfies both invariants. -/
theorem selection_invariants_witness :
    SelInv (runSelOps stateAB [SelOp.select "obj_7_aaa"]) ∧
    WeakSelInv (runSelOps stateAB [SelOp.select "obj_7_aaa"]) :=
  selection_invariants stateAB [SelOp.select "obj_7_aaa"]
    ⟨by simp [stateAB], rfl, rfl⟩
    ⟨by simp [okSelOp, liveIds, stateAB, cubeA, sphereB], trivial⟩

/-! ### C8 — best-effort import -/

lemma saveUndoState_objects (s : EditorState) : (saveUndoState s).objects = s.objects := rfl

lemma map_idType_preserve (f : SceneObject → SceneObject) (l : List SceneObject)
    (hf : ∀ o, (f o).id = o.id ∧ (f o).type = o.type) :
    (l.map f).map (fun o => (o.id, o.type)) = l.map (fun o => (o.id, o.type)) := by
  induction l with
  | nil => rfl
  | cons x xs ih => simp [(hf x).1, (hf x).2, ih]

lemma idType_selectObject (obj : Option String) (b : Bool) (s : EditorState) :
    (selectObject obj b s).objects.map (fun o => (o.id, o.type))
      = s.objects.map (fun o => (o.id, o.type)) := by
  cases obj with
  | none =>
    rw [selectObject_none_objects,
        map_idType_preserve (withEmissive · 0) s.objects (fun o => ⟨rfl, rfl⟩)]
  | some id =>
    cases b with
    | false =>
      rw [selectObject_plain_objects,
          map_idType_preserve (fun o => if o.id = id then withEmissive o 0x333333 else o)
            (s.objects.map (withEmissive · 0))
            (fun o => by dsimp only; split <;> exact ⟨rfl, rfl⟩),
          map_idType_preserve (withEmissive · 0) s.objects (fun o => ⟨rfl, rfl⟩)]
    | true =>
      rw [selectObject_toggle_objects,
          map_idType_preserve
            (fun o => if o.id ∈ toggledSelection id s.selectedObjects
                      then withEmissive o 0x333333 else o)
            (s.objects.map (withEmissive · 0))
            (fun o => by dsimp only; split <;> exact ⟨rfl, rfl⟩),
          map_idType_preserve (withEmissive · 0) s.objects (fun o => ⟨rfl, rfl⟩)]

/-- C8: importing a scene whose codec yields two mesh nodes and one
malformed (non-mesh) node adds exactly two new objects, at the end of the
registry, each with shape kind `imported` and a freshly generated id, while
the malformed node is skipped without aborting the import; and when the
codec fails on a wholly malformed blob, the failure is surfaced (`alert`)
and the registry is unchanged. -/
theorem import_best_effort (n1 nb n2 : GltfNode) (h1 : n1.isMesh = true)
    (hb : nb.isMesh = false) (h2 : n2.isMesh = true)
    (t1 t2 : ℕ) (r1 r2 : String) (s : EditorState) :
    (importModel (.ok [n1, nb, n2]) [(t1, r1), (t2, r2)] s).objects.map
        (fun o => (o.id, o.type))
      = s.objects.map (fun o => (o.id, o.type))
          ++ [(generateId t1 r1, "imported"), (generateId t2 r2, "imported")] ∧
    (∀ env : List (ℕ × String), (importModel (.error ()) env s).objects = s.objects) := by
  constructor
  · have hf : [n1, nb, n2].filter (·.isMesh) = [n1, n2] := by
      simp [List.filter_cons, h1, hb, h2]
    simp only [importModel, hf, List.zip_cons_cons, List.zip_nil_right,
      List.map_cons, List.map_nil, List.head?_cons]
    rw [idType_selectObject]
    simp only [List.map_append, List.map_cons, List.map_nil, saveUndoState_objects]
  · intro env
    rfl

/-- A concrete valid mesh node. -/
def meshNode : GltfNode :=
  { isMesh := true, name := "Part", matIsStandard := true, matColor := some 0x888888,
    material := cubeA.mesh.material, geometry := .other "imported",
    position := { x := 0, y := 0, z := 0 }, rotation := { x := 0, y := 0, z := 0 },
    scale := { x := 1, y := 1, z := 1 }, visible := true }

/-- A concrete malformed (non-mesh) node. -/
def badNode : GltfNode :=
  { meshNode with isMesh := false, name := "Bad" }

/-- C8 witness: importing `[mesh, malformed, mesh]` into a fresh session
adds exactly the two mesh nodes as `imported` objects; a failed parse leaves
the registry empty. -/
theorem import_best_effort_witness :
    (importModel (.ok [meshNode, badNode, meshNode]) [(0, "aaa"), (1, "bbb")]
        emptyEditor).objects.map (fun o => (o.id, o.type))
      = emptyEditor.objects.map (fun o => (o.id, o.type))
          ++ [(generateId 0 "aaa", "imported"), (generateId 1 "bbb", "imported")] ∧
    (∀ env : List (ℕ × String),
        (importModel (.error ()) env emptyEditor).objects = emptyEditor.objects) :=
  import_best_effort meshNode badNode meshNode rfl rfl rfl 0 1 "aaa" "bbb" emptyEditor


/-! ### C4 — id allocation -/

lemma sep_split_first : ∀ {a : List Char} {c b d : List Char},
    a ++ '_' :: b = c ++ '_' :: d → '_' ∉ a → '_' ∉ c → a = c ∧ b = d := by
  intro a
  induction a with
  | nil =>
    intro c b d h ha hc
    cases c with
    | nil => simpa using h
    | cons y cs =>
      rw [List.nil_append, List.cons_append] at h
      injection h with h1 h2
      subst h1
      simp at hc
  | cons x xs ih =>
    intro c b d h ha hc
    cases c with
    | nil =>
      rw [List.cons_append, List.nil_append] at h
      injection h with h1 h2
      subst h1
      simp at ha
    | cons y cs =>
      rw [List.cons_append, List.cons_append] at h
      injection h with h1 h2
      subst h1
      have ha' : '_' ∉ xs := fun hm => ha (List.mem_cons_of_mem _ hm)
      have hc' : '_' ∉ cs := fun hm => hc (List.mem_cons_of_mem _ hm)
      obtain ⟨e1, e2⟩ := ih h2 ha' hc'
      exact ⟨by rw [e1], e2⟩

lemma sep_split_last {a c b d : List Char}
    (h : a ++ '_' :: b = c ++ '_' :: d) (hb : '_' ∉ b) (hd : '_' ∉ d) : b = d := by
  have h' : b.reverse ++ '_' :: a.reverse = d.reverse ++ '_' :: c.reverse := by
    have hrev := congrArg List.reverse h
    simpa [List.reverse_append] using hrev
  have hb' : '_' ∉ b.reverse := by simpa using hb
  have hd' : '_' ∉ d.reverse := by simpa using hd
  have hr := (sep_split_first h' hb' hd').1
  simpa using congrArg List.reverse hr

lemma generateId_data (t : ℕ) (r : String) :
    (generateId t r).data = ("obj_".data ++ (toString t).data) ++ '_' :: r.data := by
  unfold generateId
  rw [String.data_append, String.data_append, String.data_append]
  rw [show ("_" : String).data = ['_'] from rfl, List.append_assoc ("obj_".data ++ (toString t).data)]
  rfl

lemma generateId_suffix_inj {t tt : ℕ} {r rr : String}
    (hr : '_' ∉ r.data) (hrr : '_' ∉ rr.data)
    (h : generateId t r = generateId tt rr) : r = rr := by
  have hd := congrArg String.data h
  rw [generateId_data, generateId_data] at hd
  have he := sep_split_last hd hr hrr
  cases r
  cases rr
  simp at he
  rw [he]

/-- The allocation-relevant operations of the claim: add a primitive,
duplicate, import (a successfully parsed node list plus the environment
pairs feeding `generateId`), and delete. -/
inductive AllocOp where
  | add (kind : String) (t : ℕ) (r : String) (c : ℕ)
  | dup (id : String) (t : ℕ) (r : String)
  | imp (nodes : List GltfNode) (env : List (ℕ × String))
  | del (id : String)

/-- Run one allocation operation. -/
def applyAllocOp : AllocOp → EditorState → EditorState
  | .add kind t r c, s => addPrimitive kind t r c s
  | .dup id t r, s => duplicateObject id t r s
  | .imp nodes env, s => importModel (.ok nodes) env s
  | .del id, s => deleteObject id s

/-- The `(Date.now, random-suffix)` environment pairs an operation feeds to
`generateId`: one per add/duplicate, one per imported mesh node. -/
def opPairs : AllocOp → List (ℕ × String)
  | .add _ t r _ => [(t, r)]
  | .dup _ t r => [(t, r)]
  | .imp nodes env => ((nodes.filter (·.isMesh)).zip env).map (·.2)
  | .del _ => []

/-- The ids an operation allocates. -/
def allocIds (op : AllocOp) : List String :=
  (opPairs op).map fun p => generateId p.1 p.2

/-- Run a sequence of allocation operations. -/
def runAllocOps (s : EditorState) : List AllocOp → EditorState
  | [] => s
  | op :: ops => runAllocOps (applyAllocOp op s) ops

lemma liveIds_addPrimitive (kind : String) (t : ℕ) (r : String) (c : ℕ) (s : EditorState) :
    liveIds (addPrimitive kind t r c s) = liveIds s ++ [generateId t r] := by
  unfold addPrimitive
  dsimp only
  rw [liveIds_selectObject]
  unfold liveIds
  rw [List.map_append]
  rfl

lemma liveIds_duplicateObject (id : String) (t : ℕ) (r : String) (s : EditorState) :
    liveIds (duplicateObject id t r s) = liveIds s ∨
    liveIds (duplicateObject id t r s) = liveIds s ++ [generateId t r] := by
  unfold duplicateObject
  cases hfind : s.objects.find? (·.id = id) with
  | none => left; rfl
  | some obj =>
    right
    dsimp only
    rw [liveIds_selectObject]
    unfold liveIds
    rw [List.map_append]
    rfl

lemma liveIds_importModel_ok (nodes : List GltfNode) (env : List (ℕ × String)) (s : EditorState) :
    liveIds (importModel (.ok nodes) env s)
      = liveIds s ++ ((nodes.filter (·.isMesh)).zip env).map (fun p => generateId p.2.1 p.2.2) := by
  cases hz : (nodes.filter (·.isMesh)).zip env with
  | nil =>
    simp only [importModel, hz, List.map_nil, List.head?_nil]
    unfold liveIds
    simp only [List.map_append, List.map_nil]
    rfl
  | cons p ps =>
    simp only [importModel, hz, List.map_cons, List.head?_cons]
    rw [liveIds_selectObject]
    unfold liveIds
    rw [List.map_append, List.map_cons, List.map_map]
    rfl

lemma liveIds_deleteObject_sublist (id : String) (s : EditorState) :
    (liveIds (deleteObject id s)).Sublist (liveIds s) := by
  unfold liveIds
  rw [deleteObject_objects]
  exact (List.filter_sublist s.objects).map SceneObject.id

lemma applyAllocOp_liveIds (op : AllocOp) (s : EditorState) :
    (liveIds (applyAllocOp op s)).Sublist (liveIds s ++ allocIds op) := by
  cases op with
  | add kind t r c =>
    show (liveIds (addPrimitive kind t r c s)).Sublist _
    rw [liveIds_addPrimitive]
    exact List.Sublist.refl _
  | dup id t r =>
    show (liveIds (duplicateObject id t r s)).Sublist _
    rcases liveIds_duplicateObject id t r s with h | h
    · rw [h]
      exact List.sublist_append_left _ _
    · rw [h]
      exact List.Sublist.refl _
  | imp nodes env =>
    show (liveIds (importModel (.ok nodes) env s)).Sublist _
    rw [liveIds_importModel_ok]
    have hids : allocIds (.imp nodes env)
        = ((nodes.filter (·.isMesh)).zip env).map (fun p => generateId p.2.1 p.2.2) := by
      unfold allocIds opPairs
      rw [List.map_map]
      rfl
    rw [show allocIds (AllocOp.imp nodes env) = _ from hids]
  | del id =>
    show (liveIds (deleteObject id s)).Sublist _
    exact (liveIds_deleteObject_sublist id s).trans (List.sublist_append_left _ _)

lemma runAllocOps_liveIds (ops : List AllocOp) :
    ∀ s : EditorState,
      (liveIds (runAllocOps s ops)).Sublist (liveIds s ++ ops.flatMap allocIds) := by
  induction ops with
  | nil =>
    intro s
    simp [runAllocOps]
  | cons op ops ih =>
    intro s
    have h1 := ih (applyAllocOp op s)
    have h2 := (applyAllocOp_liveIds op s).append_right (ops.flatMap allocIds)
    have h3 := h1.trans h2
    rw [List.append_assoc] at h3
    simpa [List.flatMap_cons] using h3

lemma allocPairs_ids_pairwise {pairs : List (ℕ × String)}
    (hpw : (pairs.map (·.2)).Pairwise (· ≠ ·))
    (hus : ∀ p ∈ pairs, ('_' ∈ p.2.data) → False) :
    (pairs.map fun p => generateId p.1 p.2).Pairwise (· ≠ ·) := by
  rw [List.pairwise_map] at hpw ⊢
  refine hpw.imp_of_mem ?_
  intro a b ha hb hne heq
  exact hne (generateId_suffix_inj (hus a ha) (hus b hb) heq)

/-- C4 (amended): in a session starting from the empty editor, for every
sequence of add / duplicate / import / delete operations, all ids ever
allocated by `generateId` are pairwise distinct — so an id of a deleted
object is never handed to a later object — and the live ids are pairwise
distinct, provided the environment never draws the same random suffix twice
and the suffixes are underscore-free (as `Math.random().toString(36)`
output is).  The generator consults no registry state, so uniqueness rests
entirely on the environment: the counterexample shows a repeated draw
producing a duplicate id. -/
theorem alloc_ids_distinct (ops : List AllocOp)
    (hpw : ((ops.flatMap opPairs).map (·.2)).Pairwise (· ≠ ·))
    (hus : ∀ p ∈ ops.flatMap opPairs, ('_' ∈ p.2.data) → False) :
    (ops.flatMap allocIds).Pairwise (· ≠ ·) ∧
    (liveIds (runAllocOps emptyEditor ops)).Pairwise (· ≠ ·) := by
  have hflat : ops.flatMap allocIds
      = (ops.flatMap opPairs).map (fun p => generateId p.1 p.2) := by
    rw [List.map_flatMap]
    rfl
  have hall : (ops.flatMap allocIds).Pairwise (· ≠ ·) := by
    rw [hflat]
    exact allocPairs_ids_pairwise hpw hus
  refine ⟨hall, ?_⟩
  have hsub := runAllocOps_liveIds ops emptyEditor
  have hemp : liveIds emptyEditor ++ ops.flatMap allocIds = ops.flatMap allocIds := rfl
  rw [hemp] at hsub
  exact hall.sublist hsub

/-- C4 counterexample: two adds in the same millisecond with the same
random draw produce two live objects carrying the same id, refuting the
unconditional claim. -/
theorem alloc_ids_counterexample :
    liveIds (runAllocOps emptyEditor
        [AllocOp.add "cube" 0 "aaaaaaaaa" 0, AllocOp.add "cube" 0 "aaaaaaaaa" 0])
      = ["obj_0_aaaaaaaaa", "obj_0_aaaaaaaaa"] ∧
    ¬ (liveIds (runAllocOps emptyEditor
        [AllocOp.add "cube" 0 "aaaaaaaaa" 0, AllocOp.add "cube" 0 "aaaaaaaaa" 0])).Pairwise (· ≠ ·) := by
  constructor
  · decide
  · decide

/-- C4 witness: an add, a duplicate, and a delete with distinct
underscore-free suffixes allocate pairwise distinct ids and leave pairwise
distinct live ids. -/
theorem alloc_ids_distinct_witness :
    ([AllocOp.add "cube" 0 "abc" 17, AllocOp.dup "obj_0_abc" 1 "xyz",
        AllocOp.del "obj_0_abc"].flatMap allocIds).Pairwise (· ≠ ·) ∧
    (liveIds (runAllocOps emptyEditor
        [AllocOp.add "cube" 0 "abc" 17, AllocOp.dup "obj_0_abc" 1 "xyz",
         AllocOp.del "obj_0_abc"])).Pairwise (· ≠ ·) :=
  alloc_ids_distinct
    [AllocOp.add "cube" 0 "abc" 17, AllocOp.dup "obj_0_abc" 1 "xyz",
     AllocOp.del "obj_0_abc"]
    (by decide) (by decide)
